import Mathlib

/-!
Verification development for the class-seat-monitor repository.

Shallow embedding of the change-detection and notification-deduplication
engine: the notification decision logic of `src/database.py`
(`should_send_notification`, `mark_notification_sent`,
`update_notification_status`), the per-course processing and cycle
orchestration of `src/monitor.py` (`SeatMonitor._process_course`,
`SeatMonitor.check_and_notify`), and the scraper's row normalizer and
retry loop of `src/scraper.py` (`CourseScraper._parse_class_row`,
`CourseScraper.scrape_courses`).

Conventions of the embedding:
  * The per-class row of the `notification_tracking` table is `Row`;
    a class with no row is `Option.none`.  SQLite `INSERT OR REPLACE`
    on the `class_code` unique key replaces the whole row, so a column
    omitted from the insert (such as `last_notified_at` in
    `update_notification_status`) comes back as its default, `NULL`,
    modelled as `Option.none`.
  * Timestamps are opaque `Nat` values (`datetime.now()` is passed in
    as the parameter `now`).
  * The outcome of one Telegram dispatch (`send_notification_sync`)
    is an input `Bool`, since the wire call is an external collaborator.
  * One attempt of `CourseScraper._scrape_with_selenium` either raises
    (modelled `Option.none`) or returns a list of parsed records
    (`Option.some`); `scrape_courses` consumes the list of attempt
    outcomes exactly as its `for attempt in range(retry_count)` loop does.
-/

/-- The literal sold-out marker used throughout the source
("Hết chỗ", scraper.py line 404, database.py lines 436/471/501). -/
def soldOutMarker : String := "Hết chỗ"

/-- One row of the `notification_tracking` table (database.py lines 86-94):
`last_notified_at TIMESTAMP` (nullable), `last_seats_status TEXT`,
`notification_sent BOOLEAN`.  The `class_code` key is carried by the
map from class codes to rows, and the surrogate `id` is dropped. -/
structure Row where
  lastNotifiedAt : Option Nat
  lastStatus : String
  sent : Bool
deriving DecidableEq, Repr

/-- A parsed class record as produced by `CourseScraper._parse_class_row`
(scraper.py lines 418-436) and consumed by `SeatMonitor._process_course`.
Fields the monitor and database never read are kept as opaque strings. -/
structure Record where
  course_code : String
  course_name : String
  class_name : String
  class_code : String
  class_type : String
  available_seats : Nat
  seats_available_text : String
  has_seats : Bool
  total_capacity : Nat
  schedule : String
  room : String
  location : String
  instructor : String
  status : String
  registration_deadline : String
  week : String
  deployment_status : String
deriving DecidableEq, Repr

/-- `Database.should_send_notification` (database.py lines 405-449).
With a tracking row present it returns
`has_seats and (not notification_sent or last_status == "Hết chỗ")`;
with no row it returns `has_seats`. -/
def shouldSendNotification (row : Option Row) (has_seats : Bool) : Bool :=
  match row with
  | some r => has_seats && (!r.sent || r.lastStatus == soldOutMarker)
  | none => has_seats

/-- `Database.mark_notification_sent` (database.py lines 451-480).
`INSERT OR REPLACE` writing all four columns:
`last_notified_at = datetime.now()`, `last_seats_status = seats_status`,
`notification_sent = 1 if seats_status != "Hết chỗ" else 0`. -/
def markNotificationSent (now : Nat) (seats_status : String) : Row :=
  { lastNotifiedAt := some now
    lastStatus := seats_status
    sent := !(seats_status == soldOutMarker) }

/-- `Database.update_notification_status` (database.py lines 482-510).
`INSERT OR REPLACE` writing only `class_code`, `last_seats_status` and
`notification_sent = 0 if seats_status == "Hết chỗ" else 1`; the
replaced row's `last_notified_at` is therefore reset to `NULL`. -/
def updateNotificationStatus (seats_status : String) : Row :=
  { lastNotifiedAt := none
    lastStatus := seats_status
    sent := !(seats_status == soldOutMarker) }

/-- Result of `SeatMonitor._process_course`: the tracking row for the
class after the call, and the returned bool (notification sent). -/
structure ProcessResult where
  row : Option Row
  notified : Bool
deriving DecidableEq, Repr

/-- `SeatMonitor._process_course` (monitor.py lines 70-120), restricted to
its effect on the class's `notification_tracking` row and its return value
(the write to the `courses` table by `save_course_data` does not touch
tracking state).  `monitored` is the watchlist as returned by
`get_monitored_courses` (pairs of `course_code` and `notify_when_seats_gt`);
`dispatchOK` is the outcome of `send_notification_sync`. -/
def processCourse (row : Option Row) (course : Record)
    (monitored : List (String × Nat)) (dispatchOK : Bool) (now : Nat) :
    ProcessResult :=
  let has_seats := course.has_seats
  let seats_status := course.seats_available_text
  match monitored.find? (fun m => m.1 == course.course_code) with
  | none =>
      { row := some (updateNotificationStatus seats_status), notified := false }
  | some _ =>
      if shouldSendNotification row has_seats then
        if dispatchOK then
          { row := some (markNotificationSent now seats_status), notified := true }
        else
          { row := row, notified := false }
      else
        { row := some (updateNotificationStatus seats_status), notified := false }

/-- Whether `_process_course` reaches `should_send_notification` and the
latter answers true: the course is on the watchlist and the decision is
NOTIFY (monitor.py lines 89-102). -/
def notifyDecision (row : Option Row) (course : Record)
    (monitored : List (String × Nat)) : Bool :=
  (monitored.find? (fun m => m.1 == course.course_code)).isSome
    && shouldSendNotification row course.has_seats

/-- One processing step for a fixed class: the observed record, the
watchlist in force that cycle, the dispatch outcome and the clock. -/
structure Step where
  course : Record
  mon : List (String × Nat)
  ok : Bool
  now : Nat

/-- The record fed to `_process_course` is scraper output, for which
`has_seats` and `seats_available_text` are tied together:
`has_seats = seats_available_text != "Hết chỗ"` (scraper.py line 404;
likewise `Course.to_dict` in models.py pairs a positive count with its
numeral text and zero with the marker). -/
def consistentStep (s : Step) : Prop :=
  s.course.has_seats = decide (s.course.seats_available_text ≠ soldOutMarker)

instance (s : Step) : Decidable (consistentStep s) := by
  unfold consistentStep; infer_instance

/-- Run a sequence of processing steps for one class, threading the
tracking row through `_process_course`. -/
def runSteps (row : Option Row) : List Step → Option Row
  | [] => row
  | s :: rest => runSteps (processCourse row s.course s.mon s.ok s.now).row rest

/-- Number of notifications actually sent along a step sequence
(steps whose `_process_course` call returns true). -/
def notificationsIn (row : Option Row) : List Step → Nat
  | [] => 0
  | s :: rest =>
      let res := processCourse row s.course s.mon s.ok s.now
      (if res.notified then 1 else 0) + notificationsIn res.row rest

/-- Number of NOTIFY decisions along a step sequence (steps where the
class is monitored and `should_send_notification` answers true,
whether or not the dispatch then succeeds). -/
def decisionsIn (row : Option Row) : List Step → Nat
  | [] => 0
  | s :: rest =>
      let res := processCourse row s.course s.mon s.ok s.now
      (if notifyDecision row s.course s.mon then 1 else 0) + decisionsIn res.row rest

/-- Numeric value of the digit characters of a string, in order: the
embedding of Python's `int(''.join(filter(str.isdigit, text)))` when the
filtered string is non-empty (scraper.py line 411). -/
def digitsValue (s : String) : Nat :=
  (s.toList.filter Char.isDigit).foldl (fun acc c => acc * 10 + (c.toNat - 48)) 0

/-- The seat-availability test of `_parse_class_row` (scraper.py line 404):
`has_seats = seats_available_text != "Hết chỗ"`. -/
def hasSeatsOf (seats_available_text : String) : Bool :=
  decide (seats_available_text ≠ soldOutMarker)

/-- The seat-count computation of `_parse_class_row` (scraper.py lines
407-414): `available_seats` starts at 0, and when `has_seats` holds it
becomes `int(''.join(filter(str.isdigit, text)))`, falling back to 1 when
that raises (no digit character at all). -/
def availableSeatsOf (seats_available_text : String) : Nat :=
  if seats_available_text ≠ soldOutMarker then
    if (seats_available_text.toList.filter Char.isDigit).isEmpty then 1
    else digitsValue seats_available_text
  else 0

/-- `CourseScraper._parse_class_row` (scraper.py lines 356-440).  The row is
the list of its cells' stripped texts; a row with fewer than 4 cells yields
no record. -/
def parseClassRow (cols : List String) (course_code : String) : Option Record :=
  if cols.length < 4 then none
  else
    let seats_available_text := cols.getD 3 ""
    some
      { course_code := course_code
        course_name := course_code
        class_name := cols.getD 0 ""
        class_code := cols.getD 1 ""
        class_type := cols.getD 2 ""
        available_seats := availableSeatsOf seats_available_text
        seats_available_text := seats_available_text
        has_seats := hasSeatsOf seats_available_text
        total_capacity := 0
        schedule := cols.getD 6 ""
        room := cols.getD 7 ""
        location := cols.getD 8 ""
        instructor := cols.getD 9 ""
        status := cols.getD 10 ""
        registration_deadline := cols.getD 4 ""
        week := cols.getD 5 ""
        deployment_status := cols.getD 11 "" }

/-- The spec's notion "the raw seats text parses as a non-negative
integer": a non-empty string of decimal digits.  Used only to compare the
spec's wording for `seat_count` with what the code computes. -/
def specParsesAsNat (s : String) : Bool :=
  !s.toList.isEmpty && s.toList.all Char.isDigit

/-- The `for attempt in range(retry_count)` loop body of
`CourseScraper.scrape_courses` (scraper.py lines 108-126), started at
attempt index `i`.  Each entry of `outcomes` is one attempt of
`_scrape_with_selenium`: `none` when it raises, `some courses` when it
returns.  The result pairs the returned record list (the empty list after
the last failure) with the list of back-off sleeps performed:
`(attempt + 1) * 5` seconds after a failed attempt that is not the last. -/
def scrapeTry (retryCount : Nat) (i : Nat) :
    List (Option (List Record)) → List Record × List Nat
  | [] => ([], [])
  | some cs :: _ => (cs, [])
  | none :: rest =>
      let r := scrapeTry retryCount (i + 1) rest
      if i < retryCount - 1 then (r.1, (i + 1) * 5 :: r.2) else r

/-- The record list `CourseScraper.scrape_courses` returns, given the
per-attempt outcomes. -/
def scrapeCourses (retryCount : Nat) (outcomes : List (Option (List Record))) :
    List Record :=
  (scrapeTry retryCount 0 outcomes).1

/-- The back-off sleeps `CourseScraper.scrape_courses` performs, in order,
given the per-attempt outcomes. -/
def scrapeDelays (retryCount : Nat) (outcomes : List (Option (List Record))) :
    List Nat :=
  (scrapeTry retryCount 0 outcomes).2

/-- Outcome of one `SeatMonitor.check_and_notify` cycle: the tracking
table afterwards (class code to row), the number of notifications sent,
and whether the "No courses scraped" operational error alert went out. -/
structure CycleResult where
  tracking : String → Option Row
  notificationsSent : Nat
  errorAlert : Bool

/-- The per-course loop of `check_and_notify` (monitor.py lines 185-190):
fold `_process_course` over the scraped records, each paired with the
outcome its dispatch would have.  Returns the tracking table and the
number of notifications sent. -/
def runCourses (monitored : List (String × Nat)) (now : Nat)
    (db : String → Option Row) :
    List (Record × Bool) → (String → Option Row) × Nat
  | [] => (db, 0)
  | p :: rest =>
      let res := processCourse (db p.1.class_code) p.1 monitored p.2 now
      let db' := fun k => if k == p.1.class_code then res.row else db k
      let r := runCourses monitored now db' rest
      (r.1, (if res.notified then 1 else 0) + r.2)

/-- `SeatMonitor.check_and_notify` (monitor.py lines 154-201), restricted
to tracking-state effects, the notification count and the operational
alert.  With an empty watchlist it returns at once; with an empty scrape
result it sends the error notification and returns; otherwise it
processes every scraped record. -/
def checkAndNotify (monitored : List (String × Nat))
    (courses : List (Record × Bool)) (now : Nat)
    (db : String → Option Row) : CycleResult :=
  if monitored.isEmpty then
    { tracking := db, notificationsSent := 0, errorAlert := false }
  else if courses.isEmpty then
    { tracking := db, notificationsSent := 0, errorAlert := true }
  else
    let r := runCourses monitored now db courses
    { tracking := r.1, notificationsSent := r.2, errorAlert := false }

/-- The dedup invariant established by a successful notification: the
class has a tracking row whose `notification_sent` is set and whose
`last_seats_status` is not the sold-out marker.  While it holds,
`should_send_notification` answers false for any `has_seats=true`
observation. -/
def rowAvailNotified : Option Row → Bool
  | some r => r.sent && !(r.lastStatus == soldOutMarker)
  | none => false

/-- A record with every field blank, used only as the (never taken)
`Option.getD` default when naming concrete parsed records below. -/
def blankRec : Record :=
  { course_code := ""
    course_name := ""
    class_name := ""
    class_code := ""
    class_type := ""
    available_seats := 0
    seats_available_text := ""
    has_seats := false
    total_capacity := 0
    schedule := ""
    room := ""
    location := ""
    instructor := ""
    status := ""
    registration_deadline := ""
    week := ""
    deployment_status := "" }

/-- A concrete scraped row of course "CS 101" whose seats cell reads "5". -/
def rec5 : Record :=
  (parseClassRow ["A", "K1", "LT", "5"] "CS 101").getD blankRec

/-- A concrete scraped row whose seats cell reads "1". -/
def recOne : Record :=
  (parseClassRow ["A", "K1", "LT", "1"] "CS 101").getD blankRec

/-- A concrete scraped row whose seats cell is empty text. -/
def recEmptyText : Record :=
  (parseClassRow ["A", "K1", "LT", ""] "CS 101").getD blankRec

/-- A concrete scraped row whose seats cell reads "a2": not a numeral,
but containing the digit 2. -/
def recA2 : Record :=
  (parseClassRow ["A", "K1", "LT", "a2"] "CS 101").getD blankRec

/-- A concrete scraped row whose seats cell reads the numeral "12". -/
def rec12 : Record :=
  (parseClassRow ["A", "K1", "LT", "12"] "CS 101").getD blankRec

/-- A watchlist containing course "CS 101" with threshold 0. -/
def monA : List (String × Nat) := [("CS 101", 0)]

/-- Processing step: `rec5` observed, course monitored, dispatch fails. -/
def failStep : Step := { course := rec5, mon := monA, ok := false, now := 0 }

/-- Processing step: `rec5` observed, course monitored, dispatch succeeds. -/
def okStep : Step := { course := rec5, mon := monA, ok := true, now := 0 }

/-- A tracking row as left by a successful notification at time 7 for a
class whose seats text was "5". -/
def rowNotified5 : Row :=
  { lastNotifiedAt := some 7, lastStatus := "5", sent := true }

/-! ## Helper lemmas -/

/-- `should_send_notification` can only answer true on a `has_seats=true`
observation. -/
lemma shouldSend_true_has_seats (row : Option Row) (h : Bool)
    (hs : shouldSendNotification row h = true) : h = true := by
  cases row with
  | none => exact hs
  | some r =>
      rw [shouldSendNotification, Bool.and_eq_true] at hs
      exact hs.1

/-- While the dedup invariant holds, a consistent `has_seats=true`
observation is absorbed: no NOTIFY decision, no notification, and the
invariant is preserved. -/
lemma processCourse_preserves_invariant (row : Option Row) (s : Step)
    (hc : consistentStep s) (hs : s.course.has_seats = true)
    (hP : rowAvailNotified row = true) :
    rowAvailNotified (processCourse row s.course s.mon s.ok s.now).row = true ∧
    (processCourse row s.course s.mon s.ok s.now).notified = false ∧
    notifyDecision row s.course s.mon = false := by
  obtain ⟨r, rfl⟩ : ∃ r, row = some r := by
    cases row with
    | none => simp [rowAvailNotified] at hP
    | some r => exact ⟨r, rfl⟩
  rw [rowAvailNotified, Bool.and_eq_true] at hP
  obtain ⟨hsent, hlast⟩ := hP
  rw [Bool.not_eq_true'] at hlast
  have htext : (s.course.seats_available_text == soldOutMarker) = false := by
    have hneq : s.course.seats_available_text ≠ soldOutMarker :=
      of_decide_eq_true (hc ▸ hs)
    simp [hneq]
  have hshould :
      shouldSendNotification (some r) s.course.has_seats = false := by
    simp [shouldSendNotification, hs, hsent, hlast]
  cases hfind : s.mon.find? (fun m => m.1 == s.course.course_code) with
  | none =>
      simp [processCourse, hfind, notifyDecision, rowAvailNotified,
        updateNotificationStatus, htext]
  | some m =>
      simp [processCourse, hfind, hshould, notifyDecision, rowAvailNotified,
        updateNotificationStatus, htext]

/-- While the dedup invariant holds, a run of consistent `has_seats=true`
steps produces no notification and no NOTIFY decision. -/
lemma zero_notifications_under_invariant (steps : List Step) :
    ∀ row : Option Row, rowAvailNotified row = true →
    (∀ t ∈ steps, consistentStep t) →
    (∀ t ∈ steps, t.course.has_seats = true) →
    notificationsIn row steps = 0 ∧ decisionsIn row steps = 0 := by
  induction steps with
  | nil => intro row _ _ _; exact ⟨rfl, rfl⟩
  | cons s rest ih =>
      intro row hP hcons hseats
      obtain ⟨h1, h2, h3⟩ :=
        processCourse_preserves_invariant row s
          (hcons s (List.mem_cons_self s rest))
          (hseats s (List.mem_cons_self s rest)) hP
      have hrest := ih _ h1
        (fun t ht => hcons t (List.mem_cons_of_mem s ht))
        (fun t ht => hseats t (List.mem_cons_of_mem s ht))
      simp [notificationsIn, decisionsIn, h2, h3, hrest.1, hrest.2]

/-- A successfully dispatched notification on a consistent observation
establishes the dedup invariant. -/
lemma notified_establishes_invariant (row : Option Row) (s : Step)
    (hc : consistentStep s)
    (hnot : (processCourse row s.course s.mon s.ok s.now).notified = true) :
    rowAvailNotified (processCourse row s.course s.mon s.ok s.now).row = true := by
  cases hfind : s.mon.find? (fun m => m.1 == s.course.course_code) with
  | none => simp [processCourse, hfind] at hnot
  | some m =>
      by_cases hshould :
          shouldSendNotification row s.course.has_seats = true
      · by_cases hok : s.ok = true
        · have hs : s.course.has_seats = true :=
            shouldSend_true_has_seats row _ hshould
          have hneq : s.course.seats_available_text ≠ soldOutMarker :=
            of_decide_eq_true (hc ▸ hs)
          simp [processCourse, hfind, hshould, hok, rowAvailNotified,
            markNotificationSent, hneq]
        · rw [Bool.not_eq_true] at hok
          simp [processCourse, hfind, hshould, hok] at hnot
      · rw [Bool.not_eq_true] at hshould
        simp [processCourse, hfind, hshould] at hnot

/-! ## C1 -/

/-- C1 (amended): after a successfully dispatched notification for a class
(a `_process_course` call that returns true on a consistent scraper
record), every later consistent observation with `has_seats=true` yields
neither a notification nor a NOTIFY decision, until an observation with
`has_seats=false` is processed.  The at-most-one-alert-per-window bound
therefore holds for dispatched notifications; it does not hold for bare
NOTIFY decisions, because a failed dispatch leaves the tracking row
unwritten and the decision repeats (see the counterexample). -/
theorem c1_notify_once_per_window (row : Option Row) (s : Step)
    (steps : List Step)
    (hc : consistentStep s)
    (hnot : (processCourse row s.course s.mon s.ok s.now).notified = true)
    (hcons : ∀ t ∈ steps, consistentStep t)
    (hseats : ∀ t ∈ steps, t.course.has_seats = true) :
    notificationsIn (processCourse row s.course s.mon s.ok s.now).row steps = 0 ∧
    decisionsIn (processCourse row s.course s.mon s.ok s.now).row steps = 0 :=
  zero_notifications_under_invariant steps _
    (notified_establishes_invariant row s hc hnot) hcons hseats

/-- Witness for C1: starting from no tracking row, a successful
notification on observing "5" seats of the monitored course is followed by
two more identical `has_seats=true` observations, and neither yields a
notification or a NOTIFY decision. -/
theorem c1_notify_once_per_window_witness :
    notificationsIn
        (processCourse none okStep.course okStep.mon okStep.ok okStep.now).row
        [okStep, okStep] = 0 ∧
    decisionsIn
        (processCourse none okStep.course okStep.mon okStep.ok okStep.now).row
        [okStep, okStep] = 0 :=
  c1_notify_once_per_window none okStep [okStep, okStep]
    (by decide) (by decide) (by decide) (by decide)

/-- C1 (counterexample to the claim as stated): when the first dispatch
fails, the tracking row is left unwritten, so two observations of the same
monitored class, both with `has_seats=true` and with no intervening
`has_seats=false` observation, each produce a NOTIFY decision: the
sequence contains two NOTIFY decisions without the class passing through
FULL. -/
theorem c1_two_decisions_on_failed_dispatch :
    decisionsIn none [failStep, failStep] = 2 ∧
    failStep.course.has_seats = true ∧
    notificationsIn none [failStep, failStep] = 0 := by
  decide

/-! ## C2 -/

/-- C2 (amended): when the engine decides NOTIFY for a monitored class,
`_process_course` dispatches the notification first and persists the new
tracking row only if the dispatch succeeds; when the dispatch fails,
nothing is persisted and the stored tracking state is exactly what it was
before the call (the transition will be re-attempted next cycle). -/
theorem c2_persist_only_after_successful_dispatch (row : Option Row)
    (c : Record) (mon : List (String × Nat)) (now : Nat)
    (hdec : notifyDecision row c mon = true) :
    (processCourse row c mon true now).row
        = some (markNotificationSent now c.seats_available_text) ∧
    (processCourse row c mon true now).notified = true ∧
    (processCourse row c mon false now).row = row ∧
    (processCourse row c mon false now).notified = false := by
  rw [notifyDecision, Bool.and_eq_true] at hdec
  obtain ⟨hsome, hshould⟩ := hdec
  cases hfind : mon.find? (fun m => m.1 == c.course_code) with
  | none => rw [hfind] at hsome; simp at hsome
  | some m => simp [processCourse, hfind, hshould]

/-- Witness for C2: first observation of "5" seats of the monitored
course, NOTIFY decided; with a successful dispatch the row is written,
with a failed dispatch the store still has no row. -/
theorem c2_persist_only_after_successful_dispatch_witness :
    (processCourse none rec5 monA true 0).row
        = some (markNotificationSent 0 rec5.seats_available_text) ∧
    (processCourse none rec5 monA true 0).notified = true ∧
    (processCourse none rec5 monA false 0).row = none ∧
    (processCourse none rec5 monA false 0).notified = false :=
  c2_persist_only_after_successful_dispatch none rec5 monA 0 (by decide)

/-- C2 (counterexample to the claim as stated): a NOTIFY decision whose
dispatch fails leaves the tracking store without any row for the class,
so the new state (HAS_SEATS, notification_sent=true) was not persisted
before the dispatch and is not committed after its failure. -/
theorem c2_no_persist_before_dispatch :
    notifyDecision none rec5 monA = true ∧
    (processCourse none rec5 monA false 0).row = none ∧
    (processCourse none rec5 monA false 0).row
        ≠ some (markNotificationSent 0 rec5.seats_available_text) := by
  decide

/-! ## C5 -/

/-- C5 (amended): with a stored row in state (HAS_SEATS,
notification_sent=true) and a consistent `has_seats=true` observation,
`_process_course` sends no notification, but it does not leave the row
unchanged: `update_notification_status` replaces the whole row, so the
new row is (last_notified_at=NULL, last_seats_status=observed text,
notification_sent=true).  In particular `last_notified_at` is cleared.
Replaying the identical observation is a fixed point only from the first
replay onward: applying the processing again to the rewritten row yields
the same row and still no notification. -/
theorem c5_ignore_rewrites_row (r : Row) (c : Record)
    (mon : List (String × Nat)) (ok : Bool) (now : Nat)
    (hsent : r.sent = true) (hlast : r.lastStatus ≠ soldOutMarker)
    (hseats : c.has_seats = true)
    (hcons : c.has_seats = decide (c.seats_available_text ≠ soldOutMarker)) :
    (processCourse (some r) c mon ok now).notified = false ∧
    (processCourse (some r) c mon ok now).row
        = some { lastNotifiedAt := none
                 lastStatus := c.seats_available_text
                 sent := true } ∧
    (processCourse
        (some (updateNotificationStatus c.seats_available_text))
        c mon ok now).notified = false ∧
    (processCourse
        (some (updateNotificationStatus c.seats_available_text))
        c mon ok now).row
        = some (updateNotificationStatus c.seats_available_text) := by
  have hneq : c.seats_available_text ≠ soldOutMarker :=
    of_decide_eq_true (hcons ▸ hseats)
  have htext : (c.seats_available_text == soldOutMarker) = false := by
    simp [hneq]
  have hshould : shouldSendNotification (some r) c.has_seats = false := by
    have hl : (r.lastStatus == soldOutMarker) = false := by simp [hlast]
    simp [shouldSendNotification, hseats, hsent, hl]
  have hshould2 :
      shouldSendNotification
        (some { lastNotifiedAt := none
                lastStatus := c.seats_available_text
                sent := true })
        c.has_seats = false := by
    simp [shouldSendNotification, hseats, htext]
  cases hfind : mon.find? (fun m => m.1 == c.course_code) with
  | none =>
      simp [processCourse, hfind, updateNotificationStatus, htext]
  | some m =>
      simp [processCourse, hfind, hshould, hshould2,
        updateNotificationStatus, htext]

/-- Witness for C5: stored row (last_notified_at=7, last_status="5",
sent=true), the monitored class is observed with the identical "5" text;
no notification, the row is rewritten with last_notified_at cleared, and
reprocessing the rewritten row is a fixed point. -/
theorem c5_ignore_rewrites_row_witness :
    (processCourse (some rowNotified5) rec5 monA true 3).notified = false ∧
    (processCourse (some rowNotified5) rec5 monA true 3).row
        = some { lastNotifiedAt := none
                 lastStatus := rec5.seats_available_text
                 sent := true } ∧
    (processCourse
        (some (updateNotificationStatus rec5.seats_available_text))
        rec5 monA true 3).notified = false ∧
    (processCourse
        (some (updateNotificationStatus rec5.seats_available_text))
        rec5 monA true 3).row
        = some (updateNotificationStatus rec5.seats_available_text) :=
  c5_ignore_rewrites_row rowNotified5 rec5 monA true 3
    (by decide) (by decide) (by decide) (by decide)

/-- C5 (counterexample to the claim as stated): replaying the identical
`has_seats=true` observation against a stored (HAS_SEATS, sent=true) row
whose `last_notified_at` is 7 yields no notification but does NOT leave
the stored row unchanged: the upsert clears `last_notified_at`. -/
theorem c5_last_notified_at_cleared :
    (processCourse (some rowNotified5) rec5 monA true 3).notified = false ∧
    (processCourse (some rowNotified5) rec5 monA true 3).row
        ≠ some rowNotified5 ∧
    ((processCourse (some rowNotified5) rec5 monA true 3).row.map
        Row.lastNotifiedAt) = some none := by
  decide

/-! ## C3 -/

/-- C3 (amended): for every record the parser produces, `has_seats` is
exactly "the seats text differs from the sold-out marker", with no
presence or non-emptiness requirement; in particular an empty seats cell
yields `has_seats=true`, not false. -/
theorem c3_has_seats_ignores_presence (cols : List String) (code : String)
    (r : Record) (h : parseClassRow cols code = some r) :
    r.has_seats = decide (r.seats_available_text ≠ soldOutMarker) := by
  rw [parseClassRow] at h
  split at h
  · exact absurd h (by simp)
  · injection h with h
    subst h
    rfl

/-- Witness for C3: the record parsed from a row whose seats cell is empty
has `has_seats` equal to "text differs from the marker" (here: true). -/
theorem c3_has_seats_ignores_presence_witness :
    recEmptyText.has_seats
      = decide (recEmptyText.seats_available_text ≠ soldOutMarker) :=
  c3_has_seats_ignores_presence ["A", "K1", "LT", ""] "CS 101" recEmptyText
    (by decide)

/-- C3 (counterexample to the claim as stated): a class row whose seats
cell is the empty string parses to a record with `has_seats = true`,
whereas the claim requires `has_seats = false` when the field is empty. -/
theorem c3_empty_text_counts_available :
    parseClassRow ["A", "K1", "LT", ""] "CS 101" = some recEmptyText ∧
    recEmptyText.seats_available_text = "" ∧
    recEmptyText.has_seats = true := by
  decide

/-- When `has_seats` is false the parsed seat count is 0
(scraper.py line 407: `available_seats = 0` is only overwritten under
`if has_seats`). -/
lemma availableSeatsOf_of_no_seats (t : String) (h : hasSeatsOf t = false) :
    availableSeatsOf t = 0 := by
  rw [availableSeatsOf, if_neg (of_decide_eq_false h)]

/-- When `has_seats` is true and the text has no digit character,
`int` raises and the fallback seat count is 1. -/
lemma availableSeatsOf_of_no_digit (t : String) (h : hasSeatsOf t = true)
    (hd : (t.toList.filter Char.isDigit).isEmpty = true) :
    availableSeatsOf t = 1 := by
  rw [availableSeatsOf, if_pos (of_decide_eq_true h), if_pos hd]

/-- When `has_seats` is true and the text contains a digit, the seat
count is the number formed by its digit characters. -/
lemma availableSeatsOf_of_digit (t : String) (h : hasSeatsOf t = true)
    (hd : (t.toList.filter Char.isDigit).isEmpty = false) :
    availableSeatsOf t = digitsValue t := by
  rw [availableSeatsOf, if_pos (of_decide_eq_true h), if_neg]
  intro hc
  rw [hd] at hc
  exact Bool.false_ne_true hc

/-- On text that is a bare numeral (the spec's "parses as a non-negative
integer"), the code's digit extraction returns exactly that numeral's
value. -/
lemma availableSeatsOf_of_numeral (t : String)
    (h : specParsesAsNat t = true) : availableSeatsOf t = digitsValue t := by
  rw [specParsesAsNat, Bool.and_eq_true] at h
  obtain ⟨hne, hdig⟩ := h
  have hmarker : t ≠ soldOutMarker := by
    intro hm
    subst hm
    exact absurd hdig (by decide)
  have hfilter : t.toList.filter Char.isDigit = t.toList :=
    List.filter_eq_self.mpr (List.all_eq_true.mp hdig)
  have hempty : (t.toList.filter Char.isDigit).isEmpty = false := by
    rw [hfilter]
    rw [Bool.not_eq_true'] at hne
    exact hne
  exact availableSeatsOf_of_digit t (decide_eq_true hmarker) hempty

/-! ## C6 -/

/-- C6 (amended): the parser's `available_seats` is 0 when
`has_seats=false`; when `has_seats=true` it is the number formed by
concatenating all digit characters of the seats text when there is at
least one digit, and 1 when the text contains no digit at all.  When the
whole text is a numeral (the spec's "parses as a non-negative integer")
this agrees with the spec; on non-numeral text containing digits the code
extracts the digits instead of defaulting to 1. -/
theorem c6_seat_count_digit_extraction (cols : List String) (code : String)
    (r : Record) (h : parseClassRow cols code = some r) :
    (r.has_seats = false → r.available_seats = 0) ∧
    (r.has_seats = true →
      (r.seats_available_text.toList.filter Char.isDigit).isEmpty = true →
      r.available_seats = 1) ∧
    (r.has_seats = true →
      (r.seats_available_text.toList.filter Char.isDigit).isEmpty = false →
      r.available_seats = digitsValue r.seats_available_text) ∧
    (specParsesAsNat r.seats_available_text = true →
      r.available_seats = digitsValue r.seats_available_text) := by
  rw [parseClassRow] at h
  split at h
  · exact absurd h (by simp)
  · injection h with h
    subst h
    exact ⟨availableSeatsOf_of_no_seats _, availableSeatsOf_of_no_digit _,
      availableSeatsOf_of_digit _, availableSeatsOf_of_numeral _⟩

/-- Witness for C6: on the numeral seats text "12" the parsed record has
12 seats, the digit-extraction value of "12". -/
theorem c6_seat_count_digit_extraction_witness :
    (rec12.has_seats = false → rec12.available_seats = 0) ∧
    (rec12.has_seats = true →
      (rec12.seats_available_text.toList.filter Char.isDigit).isEmpty = true →
      rec12.available_seats = 1) ∧
    (rec12.has_seats = true →
      (rec12.seats_available_text.toList.filter Char.isDigit).isEmpty = false →
      rec12.available_seats = digitsValue rec12.seats_available_text) ∧
    (specParsesAsNat rec12.seats_available_text = true →
      rec12.available_seats = digitsValue rec12.seats_available_text) :=
  c6_seat_count_digit_extraction ["A", "K1", "LT", "12"] "CS 101" rec12
    (by decide)

/-- C6 (counterexample to the claim as stated): the seats text "a2" does
not parse as a non-negative integer and `has_seats` is true, so the claim
requires `seat_count = 1`; the code extracts the digit and yields 2. -/
theorem c6_digit_extraction_beats_default_one :
    parseClassRow ["A", "K1", "LT", "a2"] "CS 101" = some recA2 ∧
    specParsesAsNat recA2.seats_available_text = false ∧
    recA2.has_seats = true ∧
    recA2.available_seats = 2 ∧
    recA2.available_seats ≠ 1 := by
  decide

/-! ## C7 -/

/-- C7 (amended): the watchlist threshold (`notify_when_seats_gt`) and
the observed seat count are never consulted by `_process_course` or
`should_send_notification`: the outcome of processing is identical for
any two thresholds and any two observed seat counts.  The threshold is
stored with the watchlist entry but plays no part in the NOTIFY
decision. -/
theorem c7_threshold_never_consulted (row : Option Row) (c : Record)
    (code : String) (t₁ t₂ n₁ n₂ : Nat) (ok : Bool) (now : Nat) :
    processCourse row { c with available_seats := n₁ } [(code, t₁)] ok now
      = processCourse row { c with available_seats := n₂ } [(code, t₂)] ok now := by
  cases h : (code == c.course_code) <;>
    simp [processCourse, List.find?, h]

/-- C7 (counterexample to the claim as stated): with threshold 5 on
course "CS 101" and an observed class with exactly 1 seat, the code still
sends a notification, although 1 does not exceed the threshold. -/
theorem c7_notify_below_threshold :
    (processCourse none recOne [("CS 101", 5)] true 0).notified = true ∧
    recOne.available_seats = 1 ∧
    ¬ recOne.available_seats > 5 := by
  decide

/-! ## C8 -/

/-- C8 (amended): when all 3 of 3 scrape attempts fail, the retrier
sleeps only twice, 5 then 10 seconds (`(attempt + 1) * 5` after each
failed attempt except the last; there is no third sleep), returns the
empty record list, and a cycle whose scrape result is empty modifies no
class's tracking state. -/
theorem c8_two_backoff_sleeps (mon : List (String × Nat)) (now : Nat)
    (db : String → Option Row) (c : String) :
    scrapeDelays 3 [none, none, none] = [5, 10] ∧
    scrapeCourses 3 [none, none, none] = [] ∧
    (checkAndNotify mon [] now db).tracking c = db c := by
  refine ⟨rfl, rfl, ?_⟩
  by_cases h : mon.isEmpty <;> simp [checkAndNotify, h]

/-- C8 (counterexample to the claim as stated): the backoff delays for an
all-failing 3-attempt run are [5, 10], not the claimed three delays
[d, 2d, 3d] = [5, 10, 15]. -/
theorem c8_no_third_sleep :
    scrapeDelays 3 [none, none, none] = [5, 10] ∧
    scrapeDelays 3 [none, none, none] ≠ [5, 10, 15] := by
  decide

/-! ## C4 -/

/-- All-failing attempt lists make the scrape loop return the empty
record list, whatever attempt index it starts at. -/
lemma scrapeTry_all_none (rc : Nat) :
    ∀ (n i : Nat), (scrapeTry rc i (List.replicate n none)).1 = [] := by
  intro n
  induction n with
  | zero => intro i; rfl
  | succ k ih =>
      intro i
      rw [List.replicate_succ, scrapeTry]
      split
      · exact ih (i + 1)
      · exact ih (i + 1)

/-- C4 (amended): the two failure outcomes are NOT distinguishable, and
the orchestrator alerts on both.  Exhausting all attempts returns the
empty record list, and so does a successful scrape that found zero
records; `check_and_notify` sends the "No courses scraped" operational
error alert whenever the scrape result is empty (and the watchlist is
non-empty), in both cases alike. -/
theorem c4_empty_and_failed_scrape_conflated (retryCount : Nat)
    (rest : List (Option (List Record))) (mon : List (String × Nat))
    (now : Nat) (db : String → Option Row) (hmon : mon ≠ []) :
    scrapeCourses retryCount (List.replicate retryCount none) = [] ∧
    scrapeCourses retryCount (some [] :: rest) = [] ∧
    (checkAndNotify mon [] now db).errorAlert = true := by
  refine ⟨scrapeTry_all_none retryCount retryCount 0, rfl, ?_⟩
  have h : mon.isEmpty = false := by
    cases mon with
    | nil => exact absurd rfl hmon
    | cons a l => rfl
  simp [checkAndNotify, h]

/-- Witness for C4: three failed attempts and one empty-success attempt
both return the empty list, and the cycle with watchlist ["CS 101"] and
empty scrape result raises the operational alert. -/
theorem c4_empty_and_failed_scrape_conflated_witness :
    scrapeCourses 3 (List.replicate 3 none) = [] ∧
    scrapeCourses 3 (some [] :: []) = [] ∧
    (checkAndNotify monA [] 0 (fun _ => none)).errorAlert = true :=
  c4_empty_and_failed_scrape_conflated 3 [] monA 0 (fun _ => none) (by decide)

/-- C4 (counterexample to the claim as stated): the value returned after
exhausting all attempts equals the value returned by a successful scrape
with zero records, so the orchestrator cannot distinguish them, and it
sends the operational error alert in the zero-record case as well. -/
theorem c4_indistinguishable_and_alerted :
    scrapeCourses 3 [some []] = scrapeCourses 3 [none, none, none] ∧
    (checkAndNotify monA [] 0 (fun _ => none)).errorAlert = true := by
  decide

/-! ## C9 -/

/-- The per-course fold of a cycle only writes tracking rows of class
codes that occur in the processed record list. -/
lemma runCourses_frame (mon : List (String × Nat)) (now : Nat)
    (courses : List (Record × Bool)) :
    ∀ (db : String → Option Row) (c : String),
      (∀ p ∈ courses, p.1.class_code ≠ c) →
      (runCourses mon now db courses).1 c = db c := by
  induction courses with
  | nil => intro db c _; rfl
  | cons p rest ih =>
      intro db c h
      have hp : p.1.class_code ≠ c := h p (List.mem_cons_self p rest)
      have hcp : (c == p.1.class_code) = false := by
        simp [Ne.symm hp]
      rw [runCourses]
      dsimp only
      rw [ih _ _ (fun q hq => h q (List.mem_cons_of_mem p hq))]
      rw [hcp]
      rfl

/-- C9: a tracked class absent from a cycle's scrape results has its
stored tracking state untouched by that cycle: whatever the watchlist,
the scraped records and the dispatch outcomes, if no scraped record
carries the class's code, the tracking row for that code after
`check_and_notify` equals the row before it. -/
theorem c9_absent_class_state_frame (mon : List (String × Nat))
    (courses : List (Record × Bool)) (now : Nat)
    (db : String → Option Row) (c : String)
    (h : ∀ p ∈ courses, p.1.class_code ≠ c) :
    (checkAndNotify mon courses now db).tracking c = db c := by
  rw [checkAndNotify]
  split
  · rfl
  · split
    · rfl
    · exact runCourses_frame mon now courses db c h

/-- Witness for C9: a cycle that scrapes only class "K1" leaves the
(absent) class "K9" with the tracking row it had before. -/
theorem c9_absent_class_state_frame_witness :
    (checkAndNotify monA [(rec5, true)] 0
        (fun k => if k == "K9" then some rowNotified5 else none)).tracking "K9"
      = (fun k => if k == "K9" then some rowNotified5 else none) "K9" :=
  c9_absent_class_state_frame monA [(rec5, true)] 0
    (fun k => if k == "K9" then some rowNotified5 else none) "K9" (by decide)

/-! ## C10 -/

/-- C10: every row written by `mark_notification_sent` or
`update_notification_status` satisfies the invariant
`notification_sent = (last_seats_status != "Hết chỗ")`: the flag is a
function of the stored status text, so the written pair is either
(sold-out, false) or (not-sold-out, true). -/
theorem c10_sent_flag_determined_by_status (s : String) (now : Nat) :
    (markNotificationSent now s).sent
        = !((markNotificationSent now s).lastStatus == soldOutMarker) ∧
    (updateNotificationStatus s).sent
        = !((updateNotificationStatus s).lastStatus == soldOutMarker) ∧
    ((markNotificationSent now s).lastStatus = soldOutMarker ∧
        (markNotificationSent now s).sent = false ∨
      (markNotificationSent now s).lastStatus ≠ soldOutMarker ∧
        (markNotificationSent now s).sent = true) ∧
    ((updateNotificationStatus s).lastStatus = soldOutMarker ∧
        (updateNotificationStatus s).sent = false ∨
      (updateNotificationStatus s).lastStatus ≠ soldOutMarker ∧
        (updateNotificationStatus s).sent = true) := by
  by_cases h : s = soldOutMarker <;>
    simp [markNotificationSent, updateNotificationStatus, h]
